import Mathlib

/-!
Verification development for the ron3ia-api repository.

The repository file `backend/main.py` contains two concatenated revisions of
the same payments-gated report-delivery service:

* Revision A (lines 1-582): FastAPI app with a `ReportStore` abstraction
  (in-memory dict / BigQuery table), endpoints `/analyze`,
  `/create-checkout-session`, `/create-repair-checkout-session`,
  `/report/...`, `/report-status/...`, and the webhook `POST /stripe-webhook`.
* Revision B (lines 583-779): file-backed revision with
  `POST /stripe/webhook`, a JSON status file, PDF generation and email
  delivery, and idempotency keyed on a `sent` flag.

Both are shallowly embedded below.  Python dictionaries are modelled as
association lists over a value type `Val`; external collaborators
(`stripe.Webhook.construct_event`, `stripe.checkout.Session.create`,
`generate_pdf`, `send_report_email`, the fallible BigQuery / file backends)
are modelled by explicit outcome parameters, since the handler only observes
whether they return normally or raise.
-/

namespace Ron3ia

/-- Values stored in Python dictionaries of the service: `None`, strings,
ints, bools, lists and nested dicts. -/
inductive Val where
  | null
  | str (s : String)
  | int (n : Int)
  | bool (b : Bool)
  | list (xs : List Val)
  | obj (fields : List (String × Val))

/-- A Python dict with string keys, modelled as an association list
(kept duplicate-free by construction: all writes go through `alSet`). -/
abbrev Dict := List (String × Val)

/-- Lookup in an association list: the Python `d.get(k)` / `d[k]` access. -/
def alGet {α : Type} : List (String × α) → String → Option α
  | [], _ => none
  | (k', v) :: rest, k => if k' = k then some v else alGet rest k

/-- Assignment `d[k] = v`: replaces the first binding of `k`,
or appends a new binding (Python dicts keep insertion order). -/
def alSet {α : Type} : List (String × α) → String → α → List (String × α)
  | [], k, v => [(k, v)]
  | (k', v') :: rest, k, v =>
      if k' = k then (k, v) :: rest else (k', v') :: alSet rest k v

/-- Python `d.update(u)`: merge `u` into `d`, key by key, in order. -/
def dictUpdate (d : Dict) (u : Dict) : Dict :=
  u.foldl (fun acc kv => alSet acc kv.1 kv.2) d

/-- Python truthiness of a value (`if v:`). -/
def Val.truthy : Val → Bool
  | .null => false
  | .str s => s != ""
  | .int n => n != 0
  | .bool b => b
  | .list xs => !xs.isEmpty
  | .obj fields => !fields.isEmpty

/-- Whitespace stripped by Python `str.strip()` (the ASCII cases; the
service's identifiers and emails contain no exotic Unicode whitespace). -/
def isPySpace (c : Char) : Bool :=
  c = ' ' || c = '\t' || c = '\n' || c = '\r' || c = '\x0b' || c = '\x0c'

/-- Leading-whitespace removal on a character list. -/
def dropSpaces : List Char → List Char
  | [] => []
  | c :: cs => if isPySpace c then dropSpaces cs else c :: cs

/-- Python `s.strip()`: remove leading and trailing whitespace. -/
def pyStrip (s : String) : String :=
  String.mk ((dropSpaces (dropSpaces s.toList).reverse).reverse)

/-- Python `a or b` on values. -/
def pyOr (a b : Val) : Val := if a.truthy then a else b

/-- Python `d.get(k)`: `None` when the key is absent. -/
def getVal (d : Dict) (k : String) : Val := (alGet d k).getD .null

/-- The Python pattern `(v or {})` followed by use as a dict: a dict value
passes through, anything falsy becomes `{}`.  (A truthy non-dict would raise
in Python; no verified Stripe payload carries one in these positions.) -/
def objOr (v : Val) : Dict :=
  match v with
  | .obj fields => fields
  | _ => []

/-- Python `d.get(k, dflt)` for string-valued fields, also covering
`(d.get(k) or "")` with `dflt = ""`: absent, `None` or non-string values
fall back to the default.  All fields read this way carry strings in
Stripe payloads. -/
def getStrD (d : Dict) (k : String) (dflt : String) : String :=
  match alGet d k with
  | some (.str s) => s
  | _ => dflt

/-- Python `s or dflt` on strings (the empty string is falsy). -/
def orDflt (s dflt : String) : String := if s = "" then dflt else s

/-- Python string coercion of a value known to be a string (used where the
source indexes with a value it just stored as a string). -/
def strOfVal : Val → String
  | .str s => s
  | _ => ""

/-! ## Report Store (revision A, `MemoryReportStore`)

The in-memory backend of the `ReportStore` abstraction:
a dict from report id to report record. -/

/-- Model of `MemoryReportStore`: `self._db` is a dict mapping report ids to records. -/
structure MemoryReportStore where
  db : List (String × Dict)

/-- Model of `create_report`: `self._db[report["report_id"]] = report`.  Every call
site stores a string `report_id`, so the key extraction uses `strOfVal`. -/
def MemoryReportStore.create_report (s : MemoryReportStore) (report : Dict) :
    MemoryReportStore :=
  ⟨alSet s.db (strOfVal (getVal report "report_id")) report⟩

/-- Model of `get_report`: `self._db.get(report_id)`. -/
def MemoryReportStore.get_report (s : MemoryReportStore) (report_id : String) :
    Option Dict :=
  alGet s.db report_id

/-- Model of `update_report`: no-op when the id is absent, otherwise
`self._db[report_id].update(updates)` — a merge into the existing record. -/
def MemoryReportStore.update_report (s : MemoryReportStore) (report_id : String)
    (updates : Dict) : MemoryReportStore :=
  match alGet s.db report_id with
  | none => s
  | some r => ⟨alSet s.db report_id (dictUpdate r updates)⟩

/-! ## BigQuery store (revision A, `BigQueryReportStore.update_report`)

The SQL `UPDATE t SET k1 = @p_k1, ... WHERE report_id = @report_id` is
modelled row-wise over the logical table.  Values are encoded exactly as the
source does before binding the query parameters: `None` becomes SQL `NULL`,
dicts/lists are serialized with `json.dumps`, bools and ints are bound as
typed parameters, anything else via `str(v)` (identity on strings). -/

/-- Four lowercase hex digits, as in Python `\\uXXXX` escapes. -/
def hex4 (n : Nat) : String :=
  let s := (Nat.toDigits 16 n).asString
  (String.mk (List.replicate (4 - s.length) '0')) ++ s

/-- Escaping of one character as in `json.dumps` with its default
`ensure_ascii=True` (characters above the basic plane would use surrogate
pairs; none occur in this service's payloads). -/
def jsonEscChar (c : Char) : String :=
  if c = '"' then "\\\""
  else if c = '\\' then "\\\\"
  else if c = '\n' then "\\n"
  else if c = '\r' then "\\r"
  else if c = '\t' then "\\t"
  else if c.toNat < 32 ∨ c.toNat ≥ 128 then "\\u" ++ hex4 c.toNat
  else String.singleton c

/-- A JSON string literal as produced by `json.dumps`. -/
def jsonQuote (s : String) : String :=
  "\"" ++ String.join (s.toList.map jsonEscChar) ++ "\""

mutual

/-- Python `json.dumps(v)` with default separators. -/
def jsonDump : Val → String
  | .null => "null"
  | .bool true => "true"
  | .bool false => "false"
  | .int n => toString n
  | .str s => jsonQuote s
  | .list xs => "[" ++ jsonDumpList xs ++ "]"
  | .obj fields => "\x7b" ++ jsonDumpFields fields ++ "\x7d"

/-- Elements of a JSON array, comma separated. -/
def jsonDumpList : List Val → String
  | [] => ""
  | [v] => jsonDump v
  | v :: rest => jsonDump v ++ ", " ++ jsonDumpList rest

/-- Members of a JSON object, comma separated. -/
def jsonDumpFields : List (String × Val) → String
  | [] => ""
  | [kv] => jsonQuote kv.1 ++ ": " ++ jsonDump kv.2
  | kv :: rest => jsonQuote kv.1 ++ ": " ++ jsonDump kv.2 ++ ", " ++ jsonDumpFields rest

end

/-- Value conversion performed by `BigQueryReportStore.update_report` for
each updated column before binding it to the SQL statement. -/
def bqEncode : Val → Val
  | .null => .null
  | .obj fields => .str (jsonDump (.obj fields))
  | .list xs => .str (jsonDump (.list xs))
  | .bool b => .bool b
  | .int n => .int n
  | .str s => .str s

/-- Application of the generated `SET` clauses to one matching row. -/
def bqSetRow (row : Dict) (updates : Dict) : Dict :=
  updates.foldl (fun r kv => alSet r kv.1 (bqEncode kv.2)) row

/-- SQL `WHERE report_id = @report_id` predicate on a row
(`NULL` never compares equal). -/
def bqRowMatches (row : Dict) (report_id : String) : Bool :=
  match getVal row "report_id" with
  | .str s => s == report_id
  | _ => false

/-- Logical effect of `BigQueryReportStore.update_report` on the table:
early return on an empty update dict, otherwise one SQL `UPDATE` setting
exactly the named columns on the rows whose `report_id` matches. -/
def bqUpdateReport (rows : List Dict) (report_id : String) (updates : Dict) :
    List Dict :=
  if updates.isEmpty then rows
  else rows.map (fun row => if bqRowMatches row report_id then bqSetRow row updates else row)

/-! ## Events and external outcomes

`stripe.Webhook.construct_event` verifies the `stripe-signature` header
against the raw body with the shared secret.  It is an external library
call; the handler observes only its outcome: a parsed event (which always
carries a `type`, an `id` and a `data.object`), a `ValueError` (unparseable
body) or a `SignatureVerificationError`. -/

/-- A verified Stripe event as returned by `construct_event`. -/
structure Event where
  type_ : String
  id : String
  dataObject : Dict

/-- Outcome of `stripe.Webhook.construct_event` on the inbound request. -/
inductive ConstructResult where
  | ok (e : Event)
  | valueError
  | sigError

namespace RevA

/-- Response of revision A's `/stripe-webhook`: an `HTTPException` with a
status code, the 200 body `return ⟨received: True, type: event_type⟩`, or an
exception escaping the handler (the framework then answers 500). -/
inductive AOutcome where
  | http (status : Nat)
  | ok (eventType : String)
  | exn

/-- The email message queued by the webhook (`background_tasks.add_task`
with `_send_email_sendgrid`): recipient and the rendered subject/text/html. -/
structure EmailMsg where
  to_email : String
  subject : String
  text : String
  html : String

/-- The unlock email built in the webhook body from `FRONTEND_URL`,
the report id and the metadata email. -/
def unlockEmail (frontendUrl report_id user_email : String) : EmailMsg :=
  let report_url := frontendUrl ++ "/report/" ++ report_id
  let repair_url := frontendUrl ++ "/repair?report_id=" ++ report_id
  { to_email := user_email
    subject := "RON3IA — Tu Veredicto Premium + Reparación Automática"
    text := "Tu veredicto premium está listo: " ++ report_url ++
      "\n\nReparar automáticamente: " ++ repair_url ++ "\n"
    html := "<p>Tu veredicto premium está listo:</p><p><a href=\"" ++ report_url ++
      "\">" ++ report_url ++ "</a></p><p><strong>REPARAR AUTOMÁTICAMENTE CON RON3IA</strong></p><p><a href=\"" ++
      repair_url ++ "\">" ++ repair_url ++ "</a></p>" }

/-- Result of one webhook request: the response, the store after the
request, and the emails handed to the background task queue. -/
structure AResult where
  outcome : AOutcome
  store : MemoryReportStore
  emails : List EmailMsg

/-- The event metadata: `data_object.get("metadata") or ⟨⟩`. -/
def metaOf (data_object : Dict) : Dict := objOr (getVal data_object "metadata")

/-- Extraction `report_id = (metadata.get("report_id") or "").strip()`. -/
def aReportId (e : Event) : String :=
  pyStrip (getStrD (metaOf e.dataObject) "report_id" "")

/-- Extraction `user_email = (metadata.get("user_email") or "").strip()`. -/
def aUserEmail (e : Event) : String :=
  pyStrip (getStrD (metaOf e.dataObject) "user_email" "")

/-- Extraction `payment_type = (metadata.get("type") or "verdict").strip()`. -/
def aPaymentType (e : Event) : String :=
  pyStrip (orDflt (getStrD (metaOf e.dataObject) "type" "") "verdict")

/-- The `full_report` dict built in the verdict branch. -/
def verdictFullReport (report_id : String) (now : Int) : Val :=
  .obj [("title", .str "RON3IA — Veredicto Premium"),
        ("report_id", .str report_id),
        ("generated_at", .int now),
        ("verdict", .str "Desbloqueado: informe premium generado.")]

/-- The update dict of the verdict branch: status, payment timestamp,
processor session id, full report. -/
def verdictUpdates (report_id : String) (now : Int) (sessionId : Val) : Dict :=
  [("status", .str "unlocked"),
   ("paid_at", .int now),
   ("stripe_session_id", sessionId),
   ("report_full", verdictFullReport report_id now)]

/-- The update dict of the repair branch. -/
def repairUpdates (now : Int) (sessionId : Val) : Dict :=
  [("repair_status", .str "active"),
   ("repair_paid_at", .int now),
   ("repair_stripe_session_id", sessionId)]

/-- Event processing of `/stripe-webhook` after signature verification.
`updateRaises` abstracts the store backend raising inside
`STORE.update_report` (the BigQuery backend raises on query failure and the
webhook wraps no try/except around it; the in-memory backend never raises,
so `updateRaises = false` models the local deployment).  `emailRaises`
abstracts an exception out of `background_tasks.add_task`, which the source
catches and logs (`Email send failed (non-blocking)`). -/
def webhookEvent (e : Event) (now : Int) (updateRaises emailRaises : Bool)
    (frontendUrl : String) (store : MemoryReportStore) : AResult :=
  let event_type := e.type_
  let data_object := e.dataObject
  if event_type = "checkout.session.completed" then
    let report_id := aReportId e
    let user_email := aUserEmail e
    let payment_type := aPaymentType e
    if report_id = "" then ⟨.ok event_type, store, []⟩
    else if payment_type = "repair" then
      if updateRaises then ⟨.exn, store, []⟩
      else ⟨.ok event_type,
            store.update_report report_id (repairUpdates now (getVal data_object "id")), []⟩
    else
      if updateRaises then ⟨.exn, store, []⟩
      else
        let store1 := store.update_report report_id
          (verdictUpdates report_id now (getVal data_object "id"))
        let emails :=
          if user_email = "" then []
          else if emailRaises then []
          else [unlockEmail frontendUrl report_id user_email]
        ⟨.ok event_type, store1, emails⟩
  else ⟨.ok event_type, store, []⟩

/-- Revision A `stripe_webhook` (`POST /stripe-webhook`): 503 when
`STRIPE_WEBHOOK_SECRET` is empty, 400 when the `stripe-signature` header is
missing, 400 when `construct_event` raises (unparseable payload or failed
signature verification), and only then event interpretation. -/
def stripe_webhook (webhookSecret : String) (stripe_signature : Option String)
    (cr : ConstructResult) (now : Int) (updateRaises emailRaises : Bool)
    (frontendUrl : String) (store : MemoryReportStore) : AResult :=
  if webhookSecret = "" then ⟨.http 503, store, []⟩
  else
    match stripe_signature with
    | none => ⟨.http 400, store, []⟩
    | some _ =>
      match cr with
      | .valueError => ⟨.http 400, store, []⟩
      | .sigError => ⟨.http 400, store, []⟩
      | .ok e => webhookEvent e now updateRaises emailRaises frontendUrl store

/-! ### Analysis intake (`POST /analyze`) -/

/-- Request body of `/analyze`. -/
structure AnalyzeRequest where
  dominio : String
  nombre : String
  email : String
  selectedModules : List String

/-- The record created by `/analyze` (fields already trimmed). -/
def analyzeRecord (dominio nombre email : String) (selected : List String)
    (report_id : String) (now : Int) : Dict :=
  let problemas := selected.map
    (fun m => Val.str ("[" ++ m ++ "] Señal de mejora detectada en " ++ dominio ++ "."))
  let report_basic : Val := .obj
    [("resumen_tecnico", .str "Diagnóstico base completado. El veredicto premium desbloquea el informe completo."),
     ("problemas_detectados", .list problemas),
     ("modulos_bloqueados", .list (selected.map Val.str))]
  [("report_id", .str report_id),
   ("dominio", .str dominio),
   ("nombre", .str nombre),
   ("email", .str email),
   ("modules", .list (selected.map Val.str)),
   ("status", .str "locked"),
   ("report_basic", report_basic),
   ("created_at", .int now)]

/-- Endpoint `POST /analyze`: trims the fields, rejects empties with 422, creates the
locked report.  `report_id` stands for the generated `uuid4().hex` and `now`
for `int(time.time())`.  Returns the new store and the created record. -/
def analyze (body : AnalyzeRequest) (report_id : String) (now : Int)
    (store : MemoryReportStore) : Except Nat (MemoryReportStore × Dict) :=
  let dominio := pyStrip body.dominio
  let nombre := pyStrip body.nombre
  let email := pyStrip body.email
  if dominio = "" ∨ nombre = "" ∨ email = "" then .error 422
  else
    let report := analyzeRecord dominio nombre email body.selectedModules report_id now
    .ok (store.create_report report, report)

/-! ### Checkout session creation -/

/-- Configuration read from the environment by the checkout endpoints. -/
structure CheckoutConfig where
  stripe_secret_key : String
  stripe_price_id : String
  stripe_repair_price_id : String
  frontend_url : String

/-- Outcome of `stripe.checkout.Session.create`: an exception, or a session
whose `url` may be absent. -/
inductive StripeSessionResult where
  | raises
  | created (url : Option String)

/-- Result of a checkout endpoint call: the HTTP outcome (error status or
the returned `checkout_url`), whether the external processor was called,
the metadata sent to it (when called), and the store after the call (these
endpoints never mutate the store). -/
structure CheckoutResult where
  outcome : Except Nat String
  stripeCalled : Bool
  metadataSent : Option Dict
  store : MemoryReportStore

/-- Endpoint `POST /create-checkout-session`: configuration checks (503), report
lookup (404 on absent — and on an empty record, which is falsy in Python),
pre-state gate (`status != "locked"` → 409), then the processor call. -/
def create_checkout_session (cfg : CheckoutConfig) (store : MemoryReportStore)
    (report_id email : String) (sr : StripeSessionResult) : CheckoutResult :=
  if cfg.stripe_secret_key = "" then ⟨.error 503, false, none, store⟩
  else if cfg.stripe_price_id = "" then ⟨.error 503, false, none, store⟩
  else if cfg.frontend_url = "" then ⟨.error 503, false, none, store⟩
  else
    match store.get_report report_id with
    | none => ⟨.error 404, false, none, store⟩
    | some report =>
      if report.isEmpty then ⟨.error 404, false, none, store⟩
      else
        let status := pyStrip (getStrD report "status" "locked")
        if status ≠ "locked" then ⟨.error 409, false, none, store⟩
        else
          let metadata : Dict :=
            [("report_id", .str report_id), ("user_email", .str email),
             ("type", .str "verdict")]
          match sr with
          | .raises => ⟨.error 502, true, some metadata, store⟩
          | .created none => ⟨.error 502, true, some metadata, store⟩
          | .created (some u) => ⟨.ok u, true, some metadata, store⟩

/-- Endpoint `POST /create-repair-checkout-session`: same shape, but the gate
requires `status == "unlocked"` (409 otherwise) and the session metadata
carries `type = "repair"`. -/
def create_repair_checkout_session (cfg : CheckoutConfig) (store : MemoryReportStore)
    (report_id : String) (email : Option String) (sr : StripeSessionResult) :
    CheckoutResult :=
  if cfg.stripe_secret_key = "" then ⟨.error 503, false, none, store⟩
  else if cfg.stripe_repair_price_id = "" then ⟨.error 503, false, none, store⟩
  else if cfg.frontend_url = "" then ⟨.error 503, false, none, store⟩
  else
    match store.get_report report_id with
    | none => ⟨.error 404, false, none, store⟩
    | some report =>
      if report.isEmpty then ⟨.error 404, false, none, store⟩
      else
        let status := pyStrip (getStrD report "status" "")
        if status ≠ "unlocked" then ⟨.error 409, false, none, store⟩
        else
          let email2 := pyStrip (orDflt (orDflt (email.getD "") (getStrD report "user_email" ""))
            "")
          let metadata : Dict :=
            [("report_id", .str report_id), ("user_email", .str email2),
             ("type", .str "repair")]
          match sr with
          | .raises => ⟨.error 502, true, some metadata, store⟩
          | .created none => ⟨.error 502, true, some metadata, store⟩
          | .created (some u) => ⟨.ok u, true, some metadata, store⟩

/-! ### Public report projection (`GET /report/...`) -/

/-- The modules extraction of `get_report`: a stored list passes through;
the in-memory backend stores `modules` as a list, so `json.loads` only ever
sees the default string `"[]"` there (parsed to the empty list); any other
string would be JSON-parsed in the BigQuery backend, which is out of scope
of this model — the `except` fallback is the empty list either way. -/
def parseModules : Val → List Val
  | .list xs => xs
  | _ => []

/-- Python `report.get("status") == "unlocked"`. -/
def isUnlockedField (report : Dict) : Bool :=
  match getVal report "status" with
  | .str s => s == "unlocked"
  | _ => false

/-- The public-safe projection returned by `GET /report/...`. -/
structure PublicReport where
  report_id : Val
  dominio : Val
  modules : List Val
  paid : Bool
  full_report : Val

/-- Endpoint `GET /report/...`: 404 on an absent (or empty, hence falsy) record,
otherwise the public projection; `full_report` is exposed only when
`status == "unlocked"`. -/
def get_report (store : MemoryReportStore) (report_id : String) :
    Except Nat PublicReport :=
  match store.get_report report_id with
  | none => .error 404
  | some report =>
    if report.isEmpty then .error 404
    else
      let modules_raw := pyOr (getVal report "selected_modules")
        (pyOr (getVal report "modules") (.str "[]"))
      let paid := isUnlockedField report
      .ok { report_id := getVal report "report_id"
            dominio := pyOr (getVal report "domain") (getVal report "dominio")
            modules := parseModules modules_raw
            paid := paid
            full_report := if paid then getVal report "report_full" else .null }

end RevA

namespace RevB

/-! ## Revision B: the file-backed `/stripe/webhook`

State is the JSON status file `reports_status.json`, a dict from report id
to record, read by `_read_status` and atomically replaced by
`_write_status`.  `generate_pdf` and `send_report_email` are external
calls observed only through success or exception, abstracted by the
`pdfFails` / `emailFails` flags; `writeRaises` abstracts `_write_status`
raising (on failure it removes its temp file, leaving the previous file —
hence the previous logical state — intact). -/

/-- The logical content of the status file. -/
abbrev StatusMap := List (String × Dict)

/-- Response of revision B's `/stripe/webhook`: `HTTPException(400)`, a bare
`Response(status_code=200)`, or an exception escaping the handler. -/
inductive BOutcome where
  | http400
  | ok200
  | exn

/-- Result of one `/stripe/webhook` request: the response, the status file
after the request, and whether PDF generation / email delivery were
attempted. -/
structure BResult where
  outcome : BOutcome
  status : StatusMap
  pdfAttempted : Bool
  emailAttempted : Bool

/-- Check `session.get("payment_status") != "paid"` negated: the session counts as
paid only when the field is exactly the string `"paid"`. -/
def paymentStatusPaid (session : Dict) : Bool :=
  match getVal session "payment_status" with
  | .str s => s == "paid"
  | _ => false

/-- Extraction `(session.get("metadata") or ⟨⟩).get("reportId", "")`. -/
def bReportId (session : Dict) : String :=
  getStrD (objOr (getVal session "metadata")) "reportId" ""

/-- Extraction `(session.get("customer_details") or ⟨⟩).get("email")
or session.get("customer_email") or ""`. -/
def bEmail (session : Dict) : String :=
  orDflt (getStrD (objOr (getVal session "customer_details")) "email" "")
    (orDflt (getStrD session "customer_email" "") "")

/-- Extraction `session.get("id", "")`. -/
def bSessionId (session : Dict) : String := getStrD session "id" ""

/-- The fields merged into the record by the mark-paid step. -/
def paidUpdates (email session_id event_id nowPaid : String) : Dict :=
  [("paid", .bool true),
   ("sent", .bool false),
   ("email", .str email),
   ("stripe_session_id", .str session_id),
   ("last_event_id", .str event_id),
   ("updated_at", .str nowPaid)]

/-- The fields merged into the record by the mark-sent step. -/
def sentUpdates (nowSent : String) : Dict :=
  [("sent", .bool true), ("sent_at", .str nowSent)]

/-- Event processing of `/stripe/webhook` after signature verification:
skip non-`checkout.session.completed` events, skip unpaid sessions, skip on
missing `reportId`/email, idempotency check on the record's `sent` flag,
mark paid + write, generate PDF (failure logged, 200), send email (failure
logged, 200), mark sent + write. -/
def bProcessEvent (e : Event) (nowPaid nowSent : String)
    (pdfFails emailFails writeRaises : Bool) (st : StatusMap) : BResult :=
  if e.type_ = "checkout.session.completed" then
    let session := e.dataObject
    if paymentStatusPaid session then
      let report_id := bReportId session
      let email := bEmail session
      let session_id := bSessionId session
      let event_id := e.id
      if report_id = "" ∨ email = "" then ⟨.ok200, st, false, false⟩
      else
        let record := (alGet st report_id).getD []
        if (getVal record "sent").truthy then ⟨.ok200, st, false, false⟩
        else
          let record1 := dictUpdate record (paidUpdates email session_id event_id nowPaid)
          let st1 := alSet st report_id record1
          if writeRaises then ⟨.exn, st, false, false⟩
          else if pdfFails then ⟨.ok200, st1, true, false⟩
          else if emailFails then ⟨.ok200, st1, true, true⟩
          else
            let record2 := dictUpdate ((alGet st1 report_id).getD []) (sentUpdates nowSent)
            ⟨.ok200, alSet st1 report_id record2, true, true⟩
    else ⟨.ok200, st, false, false⟩
  else ⟨.ok200, st, false, false⟩

/-- Revision B `stripe_webhook` (`POST /stripe/webhook`): 400 on a failed
signature verification, 400 on any other `construct_event` exception
(there is no configured-secret check in this revision: an unset
`STRIPE_WEBHOOK_SECRET` simply makes verification fail), then event
processing. -/
def stripe_webhook (cr : ConstructResult) (nowPaid nowSent : String)
    (pdfFails emailFails writeRaises : Bool) (st : StatusMap) : BResult :=
  match cr with
  | .sigError => ⟨.http400, st, false, false⟩
  | .valueError => ⟨.http400, st, false, false⟩
  | .ok e => bProcessEvent e nowPaid nowSent pdfFails emailFails writeRaises st

end RevB

/-! ## Reachable report records (revision A)

A record enters the store through `/analyze` (or `/run-production`, which
creates the same `status = "locked"` shape without a `report_full` field)
and is thereafter mutated only by the webhook's two update dicts.
`ReachableRecord` closes the analyze-created records under those updates. -/

/-- Report records reachable through the public operations of revision A. -/
inductive ReachableRecord : Dict → Prop where
  | created (dominio nombre email : String) (selected : List String)
      (report_id : String) (now : Int)
      (hd : dominio ≠ "") (hn : nombre ≠ "") (he : email ≠ "") :
      ReachableRecord (RevA.analyzeRecord dominio nombre email selected report_id now)
  | verdict (r : Dict) (report_id : String) (now : Int) (sid : Val)
      (hr : ReachableRecord r) :
      ReachableRecord (dictUpdate r (RevA.verdictUpdates report_id now sid))
  | repairStep (r : Dict) (now : Int) (sid : Val)
      (hr : ReachableRecord r) :
      ReachableRecord (dictUpdate r (RevA.repairUpdates now sid))

/-! ## Concrete sample inputs

The concrete scenario of the specification: a report created with
`domain "acme.com", name "A", email "a@x.com", modules ["SEO"]`, a completed
checkout session `sess_1` referencing it, and revision-B analogues. -/

/-- The record `/analyze` creates for the sample request (id `R`, time 100). -/
def sampleRecord : Dict :=
  RevA.analyzeRecord "acme.com" "A" "a@x.com" ["SEO"] "R" 100

/-- A store holding only the freshly created sample report. -/
def sampleStore : MemoryReportStore :=
  (MemoryReportStore.mk []).create_report sampleRecord

/-- A verified completed-checkout event for report `R` (verdict flow). -/
def sampleVerdictEvent : Event :=
  ⟨"checkout.session.completed", "evt_1",
   [("id", .str "sess_1"),
    ("metadata", .obj [("report_id", .str "R"), ("user_email", .str "a@x.com")])]⟩

/-- A verified completed-checkout event for report `R` carrying the
`type = "repair"` flow discriminator. -/
def sampleRepairEvent : Event :=
  ⟨"checkout.session.completed", "evt_2",
   [("id", .str "sess_2"),
    ("metadata", .obj [("report_id", .str "R"), ("type", .str "repair")])]⟩

/-- The store after the sample verdict event has been delivered once
(report `R` is unlocked, `paid_at = 200`). -/
def sampleUnlockedStore : MemoryReportStore :=
  (RevA.stripe_webhook "whsec" (some "sig") (.ok sampleVerdictEvent) 200
    false false "https://f" sampleStore).store

/-- A revision-B session object: paid, with `reportId` metadata and a
customer email. -/
def sampleBSession : Dict :=
  [("id", .str "cs_1"),
   ("payment_status", .str "paid"),
   ("metadata", .obj [("reportId", .str "rep_1")]),
   ("customer_email", .str "a@x.com")]

/-- A verified revision-B completed-checkout event for the paid session. -/
def sampleBEvent : Event := ⟨"checkout.session.completed", "evt_b1", sampleBSession⟩

/-- A verified revision-B completed-checkout event whose session is not paid. -/
def sampleBEventUnpaid : Event :=
  ⟨"checkout.session.completed", "evt_b2",
   [("id", .str "cs_2"),
    ("payment_status", .str "unpaid"),
    ("metadata", .obj [("reportId", .str "rep_1")]),
    ("customer_email", .str "a@x.com")]⟩

/-- A revision-B status file whose record for `rep_1` is paid and sent. -/
def sampleBStatusSent : RevB.StatusMap :=
  [("rep_1", [("paid", .bool true), ("sent", .bool true), ("email", .str "a@x.com")])]

/-- A revision-B status file whose record for `rep_1` is paid but not sent
(for example after a delivery whose PDF generation failed). -/
def sampleBStatusUnsent : RevB.StatusMap :=
  [("rep_1", [("paid", .bool true), ("sent", .bool false), ("email", .str "a@x.com"),
    ("stripe_session_id", .str "cs_0"), ("last_event_id", .str "evt_b0"),
    ("updated_at", .str "t0")])]

/-! # Theorems

General lemmas about the dict model first, then one theorem
(with witness or counterexample) per claim. -/

/-- Lookup after assignment: the assigned key reads the new value, every
other key is untouched. -/
theorem alGet_alSet {α : Type} (d : List (String × α)) (k : String) (v : α)
    (k' : String) :
    alGet (alSet d k v) k' = if k = k' then some v else alGet d k' := by
  induction d with
  | nil =>
    by_cases h : k = k' <;> simp [alSet, alGet, h]
  | cons hd tl ih =>
    by_cases h : hd.1 = k
    · by_cases h' : k = k' <;>
        simp [alSet, alGet, h, h', ih]
    · by_cases h' : hd.1 = k' <;> by_cases h'' : k = k' <;>
        simp_all [alSet, alGet]

/-- Variant of `alGet_alSet` for `getVal`. -/
theorem getVal_alSet (d : Dict) (k : String) (v : Val) (k' : String) :
    getVal (alSet d k v) k' = if k = k' then v else getVal d k' := by
  by_cases h : k = k' <;> simp [getVal, alGet_alSet, h]

/-- Unfolding of a merge one binding at a time. -/
theorem dictUpdate_cons (d : Dict) (k : String) (v : Val) (u : Dict) :
    dictUpdate d ((k, v) :: u) = dictUpdate (alSet d k v) u := rfl

/-- Merging the empty update dict changes nothing. -/
theorem dictUpdate_nil (d : Dict) : dictUpdate d [] = d := rfl

/-- Frame property of a merge: a key named by no binding of the partial
update reads the same value afterwards. -/
theorem alGet_dictUpdate_notMem (u : Dict) (d : Dict) (k : String)
    (h : ∀ kv ∈ u, kv.1 ≠ k) :
    alGet (dictUpdate d u) k = alGet d k := by
  induction u generalizing d with
  | nil => rfl
  | cons hd tl ih =>
    have hd1 : hd.1 ≠ k := h hd (List.mem_cons_self hd tl)
    have : dictUpdate d (hd :: tl) = dictUpdate (alSet d hd.1 hd.2) tl := rfl
    rw [this, ih (alSet d hd.1 hd.2) (fun kv hkv => h kv (List.mem_cons_of_mem hd hkv)),
      alGet_alSet]
    simp [hd1]

/-- Variant of the merge frame property for `getVal`. -/
theorem getVal_dictUpdate_notMem (u : Dict) (d : Dict) (k : String)
    (h : ∀ kv ∈ u, kv.1 ≠ k) :
    getVal (dictUpdate d u) k = getVal d k := by
  simp [getVal, alGet_dictUpdate_notMem u d k h]

/-- Assignment never produces the empty dict. -/
theorem alSet_ne_nil {α : Type} (d : List (String × α)) (k : String) (v : α) :
    alSet d k v ≠ [] := by
  cases d with
  | nil => simp [alSet]
  | cons hd tl =>
    by_cases h : hd.1 = k <;> simp [alSet, h]

/-- Merging into a non-empty dict yields a non-empty dict. -/
theorem dictUpdate_ne_nil (u : Dict) (d : Dict) (h : d ≠ []) :
    dictUpdate d u ≠ [] := by
  induction u generalizing d with
  | nil => exact h
  | cons hd tl ih =>
    rw [show dictUpdate d (hd :: tl) = dictUpdate (alSet d hd.1 hd.2) tl from rfl]
    exact ih (alSet d hd.1 hd.2) (alSet_ne_nil d hd.1 hd.2)

/-- Frame property of the BigQuery `SET` application: a column named by no
update is unchanged on the row. -/
theorem alGet_bqSetRow_notMem (u : Dict) (row : Dict) (k : String)
    (h : ∀ kv ∈ u, kv.1 ≠ k) :
    alGet (bqSetRow row u) k = alGet row k := by
  induction u generalizing row with
  | nil => rfl
  | cons hd tl ih =>
    have hd1 : hd.1 ≠ k := h hd (List.mem_cons_self hd tl)
    have : bqSetRow row (hd :: tl) = bqSetRow (alSet row hd.1 (bqEncode hd.2)) tl := rfl
    rw [this, ih _ (fun kv hkv => h kv (List.mem_cons_of_mem hd hkv)), alGet_alSet]
    simp [hd1]

/-- With the secret configured and a signature present, the revision-A
webhook reduces to event processing once verification succeeds. -/
theorem stripe_webhook_verified (secret sig : String) (e : Event) (now : Int)
    (ur er : Bool) (fu : String) (store : MemoryReportStore) (h : secret ≠ "") :
    RevA.stripe_webhook secret (some sig) (.ok e) now ur er fu store =
      RevA.webhookEvent e now ur er fu store := by
  simp [RevA.stripe_webhook, h]

/-- When the store backend does not raise, revision-A event processing
always responds 200, echoing the event type. -/
theorem webhookEvent_outcome_ok (e : Event) (now : Int) (er : Bool) (fu : String)
    (store : MemoryReportStore) :
    (RevA.webhookEvent e now false er fu store).outcome = .ok e.type_ := by
  unfold RevA.webhookEvent
  by_cases h1 : e.type_ = "checkout.session.completed" <;>
    by_cases h2 : RevA.aReportId e = "" <;>
      by_cases h3 : RevA.aPaymentType e = "repair" <;>
        by_cases h4 : RevA.aUserEmail e = "" <;>
          simp [h1, h2, h3, h4]

/-- The store produced by revision-A event processing does not depend on
the email-dispatch outcome. -/
theorem webhookEvent_store_email_indep (e : Event) (now : Int) (er : Bool)
    (fu : String) (store : MemoryReportStore) :
    (RevA.webhookEvent e now false er fu store).store =
      (RevA.webhookEvent e now false false fu store).store := by
  unfold RevA.webhookEvent
  by_cases h1 : e.type_ = "checkout.session.completed" <;>
    by_cases h2 : RevA.aReportId e = "" <;>
      by_cases h3 : RevA.aPaymentType e = "repair" <;>
        by_cases h4 : RevA.aUserEmail e = "" <;>
          simp [h1, h2, h3, h4]

/-- C8: `update(id, partial-fields)` of the Report Store is a merge, not a
replace: on a present id the stored record becomes the merge of the old
record with the partial fields, any field not named in the partial set is
unchanged by the merge, and updating an absent id is a no-op.  The same
merge frame holds for the BigQuery backend, whose SQL `UPDATE` sets exactly
the named columns on matching rows (and returns early on an empty update
dict). -/
theorem c8_update_is_merge :
    (∀ (s : MemoryReportStore) (rid : String) (u : Dict) (r : Dict),
       alGet s.db rid = some r →
       alGet (s.update_report rid u).db rid = some (dictUpdate r u)) ∧
    (∀ (r u : Dict) (k : String), (∀ kv ∈ u, kv.1 ≠ k) →
       getVal (dictUpdate r u) k = getVal r k) ∧
    (∀ (s : MemoryReportStore) (rid : String) (u : Dict),
       alGet s.db rid = none → s.update_report rid u = s) ∧
    (∀ (s : MemoryReportStore) (rid rid' : String) (u : Dict), rid ≠ rid' →
       alGet (s.update_report rid u).db rid' = alGet s.db rid') ∧
    (∀ (row u : Dict) (k : String), (∀ kv ∈ u, kv.1 ≠ k) →
       getVal (bqSetRow row u) k = getVal row k) ∧
    (∀ (rows : List Dict) (rid : String), bqUpdateReport rows rid [] = rows) := by
  refine ⟨?_, ?_, ?_, ?_, ?_, ?_⟩
  · intro s rid u r h
    simp [MemoryReportStore.update_report, h, alGet_alSet]
  · intro r u k h
    exact getVal_dictUpdate_notMem u r k h
  · intro s rid u h
    simp [MemoryReportStore.update_report, h]
  · intro s rid rid' u h
    unfold MemoryReportStore.update_report
    cases hg : alGet s.db rid with
    | none => rfl
    | some r => simp [alGet_alSet, h]
  · intro row u k h
    simp [getVal, alGet_bqSetRow_notMem u row k h]
  · intro rows rid
    simp [bqUpdateReport]

/-- Witness for C8 at a concrete store: updating record `R`'s field `b`
leaves its field `a` unchanged, and updating the absent id `missing` leaves
the store unchanged. -/
theorem c8_update_is_merge_check :
    getVal (dictUpdate [("a", Val.int 1), ("b", Val.int 2)] [("b", Val.int 3)]) "a" =
      getVal [("a", Val.int 1), ("b", Val.int 2)] "a" ∧
    MemoryReportStore.update_report ⟨[("R", [("a", Val.int 1)])]⟩ "missing" [("b", Val.int 3)] =
      ⟨[("R", [("a", Val.int 1)])]⟩ :=
  ⟨c8_update_is_merge.2.1 _ _ _ (by decide),
   c8_update_is_merge.2.2.1 _ _ _ rfl⟩

/-- C6: checkout-session creation (with the processor configuration
present) answers 404 on an unknown report id, and 409 on a report whose
current status is not the expected pre-transition value `locked` — in both
cases without calling the payment processor and without store mutation. -/
theorem c6_checkout_pre_state_gating :
    (∀ (cfg : RevA.CheckoutConfig) (store : MemoryReportStore) (rid email : String)
       (sr : RevA.StripeSessionResult),
       cfg.stripe_secret_key ≠ "" → cfg.stripe_price_id ≠ "" → cfg.frontend_url ≠ "" →
       store.get_report rid = none →
       RevA.create_checkout_session cfg store rid email sr =
         ⟨.error 404, false, none, store⟩) ∧
    (∀ (cfg : RevA.CheckoutConfig) (store : MemoryReportStore) (rid email : String)
       (sr : RevA.StripeSessionResult) (report : Dict),
       cfg.stripe_secret_key ≠ "" → cfg.stripe_price_id ≠ "" → cfg.frontend_url ≠ "" →
       store.get_report rid = some report → report.isEmpty = false →
       pyStrip (getStrD report "status" "locked") ≠ "locked" →
       RevA.create_checkout_session cfg store rid email sr =
         ⟨.error 409, false, none, store⟩) := by
  constructor
  · intro cfg store rid email sr h1 h2 h3 h4
    simp [RevA.create_checkout_session, h1, h2, h3, h4]
  · intro cfg store rid email sr report h1 h2 h3 h4 h5 h6
    simp [RevA.create_checkout_session, h1, h2, h3, h4, h5, h6]

/-- Witness for C6: an absent id gives 404 and an already-unlocked report
gives 409, both without a processor call, on concrete stores. -/
theorem c6_checkout_pre_state_gating_check :
    RevA.create_checkout_session ⟨"sk", "price", "rprice", "https://f"⟩
      ⟨[]⟩ "missing" "a@x.com" (.created (some "u")) =
      ⟨.error 404, false, none, ⟨[]⟩⟩ ∧
    RevA.create_checkout_session ⟨"sk", "price", "rprice", "https://f"⟩
      ⟨[("R", [("status", Val.str "unlocked")])]⟩ "R" "a@x.com" (.created (some "u")) =
      ⟨.error 409, false, none, ⟨[("R", [("status", Val.str "unlocked")])]⟩⟩ :=
  ⟨c6_checkout_pre_state_gating.1 _ _ _ _ _ (by decide) (by decide) (by decide) rfl,
   c6_checkout_pre_state_gating.2 _ _ _ _ _ _ (by decide) (by decide) (by decide) rfl rfl
     (by decide)⟩

/-- C2: when the signature header is absent, the body is unparseable, or
signature verification fails, both webhook revisions reject the request
with a 400 client error before interpreting any event field: the store is
unchanged and no side effect (no email task, no PDF attempt) occurs, for
any payload content. -/
theorem c2_signature_rejection :
    (∀ (secret : String) (cr : ConstructResult) (now : Int) (ur er : Bool)
       (fu : String) (store : MemoryReportStore), secret ≠ "" →
       RevA.stripe_webhook secret none cr now ur er fu store =
         ⟨.http 400, store, []⟩) ∧
    (∀ (secret sig : String) (now : Int) (ur er : Bool) (fu : String)
       (store : MemoryReportStore), secret ≠ "" →
       RevA.stripe_webhook secret (some sig) .valueError now ur er fu store =
         ⟨.http 400, store, []⟩) ∧
    (∀ (secret sig : String) (now : Int) (ur er : Bool) (fu : String)
       (store : MemoryReportStore), secret ≠ "" →
       RevA.stripe_webhook secret (some sig) .sigError now ur er fu store =
         ⟨.http 400, store, []⟩) ∧
    (∀ (nowP nowS : String) (p q w : Bool) (st : RevB.StatusMap),
       RevB.stripe_webhook .sigError nowP nowS p q w st =
         ⟨.http400, st, false, false⟩) ∧
    (∀ (nowP nowS : String) (p q w : Bool) (st : RevB.StatusMap),
       RevB.stripe_webhook .valueError nowP nowS p q w st =
         ⟨.http400, st, false, false⟩) := by
  refine ⟨?_, ?_, ?_, ?_, ?_⟩
  · intro secret cr now ur er fu store h
    simp [RevA.stripe_webhook, h]
  · intro secret sig now ur er fu store h
    simp [RevA.stripe_webhook, h]
  · intro secret sig now ur er fu store h
    simp [RevA.stripe_webhook, h]
  · intro nowP nowS p q w st
    rfl
  · intro nowP nowS p q w st
    rfl

/-- Witness for C2: a failed verification on the sample store is rejected
with 400 and mutates nothing, in both revisions. -/
theorem c2_signature_rejection_check :
    RevA.stripe_webhook "whsec" (some "bad") .sigError 200 false false "https://f"
      sampleStore = ⟨.http 400, sampleStore, []⟩ ∧
    RevB.stripe_webhook .sigError "t1" "t2" false false false sampleBStatusUnsent =
      ⟨.http400, sampleBStatusUnsent, false, false⟩ :=
  ⟨c2_signature_rejection.2.2.1 _ _ _ _ _ _ _ (by decide),
   c2_signature_rejection.2.2.2.1 _ _ _ _ _ _⟩

/-- C9: a verified `checkout.session.completed` event whose session is not
`payment_status = "paid"` is acknowledged with 200 by the file-backed
`/stripe/webhook` and skipped: the status file is unchanged and neither PDF
generation nor email dispatch is attempted. -/
theorem c9_unpaid_session_skipped :
    ∀ (e : Event) (nowP nowS : String) (p q w : Bool) (st : RevB.StatusMap),
      e.type_ = "checkout.session.completed" →
      RevB.paymentStatusPaid e.dataObject = false →
      RevB.stripe_webhook (.ok e) nowP nowS p q w st =
        ⟨.ok200, st, false, false⟩ := by
  intro e nowP nowS p q w st h1 h2
  simp [RevB.stripe_webhook, RevB.bProcessEvent, h1, h2]

/-- Witness for C9: the sample unpaid event leaves the sample status file
untouched and triggers no side effect. -/
theorem c9_unpaid_session_skipped_check :
    RevB.stripe_webhook (.ok sampleBEventUnpaid) "t1" "t2" false false false
      sampleBStatusUnsent = ⟨.ok200, sampleBStatusUnsent, false, false⟩ :=
  c9_unpaid_session_skipped _ _ _ _ _ _ _ rfl rfl

/-- C4: once the handler reaches the paid-state transition (verified event,
completed type, paid session, ids present, not yet sent), a failure in PDF
generation or in email delivery is swallowed: the webhook still answers 200
and the stored record keeps `paid = true` — the transition is not rolled
back.  In revision A likewise, an exception around the email dispatch is
caught: the response stays 200 and the resulting store does not depend on
the email outcome. -/
theorem c4_best_effort_isolation :
    (∀ (e : Event) (nowP nowS : String) (pdfFails emailFails : Bool)
       (st : RevB.StatusMap),
       e.type_ = "checkout.session.completed" →
       RevB.paymentStatusPaid e.dataObject = true →
       RevB.bReportId e.dataObject ≠ "" →
       RevB.bEmail e.dataObject ≠ "" →
       (getVal ((alGet st (RevB.bReportId e.dataObject)).getD []) "sent").truthy = false →
       (RevB.stripe_webhook (.ok e) nowP nowS pdfFails emailFails false st).outcome =
         .ok200 ∧
       getVal ((alGet (RevB.stripe_webhook (.ok e) nowP nowS pdfFails emailFails
           false st).status (RevB.bReportId e.dataObject)).getD []) "paid" =
         Val.bool true) ∧
    (∀ (secret sig : String) (e : Event) (now : Int) (er : Bool) (fu : String)
       (store : MemoryReportStore), secret ≠ "" →
       (RevA.stripe_webhook secret (some sig) (.ok e) now false er fu store).outcome =
         .ok e.type_ ∧
       (RevA.stripe_webhook secret (some sig) (.ok e) now false er fu store).store =
         (RevA.stripe_webhook secret (some sig) (.ok e) now false false fu store).store) := by
  constructor
  · intro e nowP nowS pdfFails emailFails st h1 h2 h3 h4 h5
    cases hpdf : pdfFails <;> cases hemail : emailFails <;>
      simp [RevB.stripe_webhook, RevB.bProcessEvent, h1, h2, h3, h4, h5,
        alGet_alSet, RevB.paidUpdates, RevB.sentUpdates,
        dictUpdate_cons, dictUpdate_nil, getVal_alSet]
  · intro secret sig e now er fu store h
    rw [stripe_webhook_verified _ _ _ _ _ _ _ _ h,
      stripe_webhook_verified _ _ _ _ _ _ _ _ h]
    exact ⟨webhookEvent_outcome_ok e now er fu store,
      webhookEvent_store_email_indep e now er fu store⟩

/-- Witness for C4: delivering the sample paid event with failing PDF
generation still answers 200 and leaves the record paid, on a concrete
status file; revision A with a failing email task still answers 200 with
the same store as on success. -/
theorem c4_best_effort_isolation_check :
    ((RevB.stripe_webhook (.ok sampleBEvent) "t1" "t2" true false false []).outcome =
       .ok200 ∧
     getVal ((alGet (RevB.stripe_webhook (.ok sampleBEvent) "t1" "t2" true false
         false []).status (RevB.bReportId sampleBEvent.dataObject)).getD []) "paid" =
       Val.bool true) ∧
    ((RevA.stripe_webhook "whsec" (some "sig") (.ok sampleVerdictEvent) 200 false true
        "https://f" sampleStore).outcome = .ok sampleVerdictEvent.type_ ∧
     (RevA.stripe_webhook "whsec" (some "sig") (.ok sampleVerdictEvent) 200 false true
        "https://f" sampleStore).store =
       (RevA.stripe_webhook "whsec" (some "sig") (.ok sampleVerdictEvent) 200 false false
        "https://f" sampleStore).store) :=
  ⟨c4_best_effort_isolation.1 _ _ _ _ _ _ rfl rfl (by decide) (by decide) rfl,
   c4_best_effort_isolation.2 _ _ _ _ _ _ _ (by decide)⟩

/-- C10: the file-backed revision keys idempotency solely on the `sent`
flag.  A record whose `sent` flag is truthy makes a redelivered event a
pure 200 acknowledgement (no write, no PDF, no email); but a record with
`paid = true` whose `sent` flag is absent or false is fully reprocessed:
the paid fields (`stripe_session_id`, `last_event_id`, `updated_at`) are
overwritten from the incoming event, PDF generation is re-attempted and,
when it succeeds, email delivery is re-attempted. -/
theorem c10_idempotency_keyed_on_sent :
    (∀ (e : Event) (nowP nowS : String) (p q w : Bool) (st : RevB.StatusMap),
       e.type_ = "checkout.session.completed" →
       RevB.paymentStatusPaid e.dataObject = true →
       RevB.bReportId e.dataObject ≠ "" →
       RevB.bEmail e.dataObject ≠ "" →
       (getVal ((alGet st (RevB.bReportId e.dataObject)).getD []) "sent").truthy = true →
       RevB.stripe_webhook (.ok e) nowP nowS p q w st =
         ⟨.ok200, st, false, false⟩) ∧
    (∀ (e : Event) (nowP nowS : String) (pdfFails emailFails : Bool)
       (st : RevB.StatusMap),
       e.type_ = "checkout.session.completed" →
       RevB.paymentStatusPaid e.dataObject = true →
       RevB.bReportId e.dataObject ≠ "" →
       RevB.bEmail e.dataObject ≠ "" →
       (getVal ((alGet st (RevB.bReportId e.dataObject)).getD []) "sent").truthy = false →
       getVal ((alGet st (RevB.bReportId e.dataObject)).getD []) "paid" = Val.bool true →
       (RevB.stripe_webhook (.ok e) nowP nowS pdfFails emailFails false st).pdfAttempted =
         true ∧
       (pdfFails = false →
         (RevB.stripe_webhook (.ok e) nowP nowS pdfFails emailFails false
           st).emailAttempted = true) ∧
       ∃ rec', alGet (RevB.stripe_webhook (.ok e) nowP nowS pdfFails emailFails
           false st).status (RevB.bReportId e.dataObject) = some rec' ∧
         getVal rec' "stripe_session_id" = Val.str (RevB.bSessionId e.dataObject) ∧
         getVal rec' "last_event_id" = Val.str e.id ∧
         getVal rec' "updated_at" = Val.str nowP) := by
  constructor
  · intro e nowP nowS p q w st h1 h2 h3 h4 h5
    simp [RevB.stripe_webhook, RevB.bProcessEvent, h1, h2, h3, h4, h5]
  · intro e nowP nowS pdfFails emailFails st h1 h2 h3 h4 h5 _h6
    cases hpdf : pdfFails <;> cases hemail : emailFails <;>
      simp [RevB.stripe_webhook, RevB.bProcessEvent, h1, h2, h3, h4, h5,
        alGet_alSet, RevB.paidUpdates, RevB.sentUpdates,
        dictUpdate_cons, dictUpdate_nil, getVal_alSet]

/-- Witness for C10: on the sent record the sample event is skipped
entirely; on the paid-but-unsent record it is reprocessed, overwriting the
provenance fields and re-attempting PDF and email. -/
theorem c10_idempotency_keyed_on_sent_check :
    RevB.stripe_webhook (.ok sampleBEvent) "t1" "t2" false false false
      sampleBStatusSent = ⟨.ok200, sampleBStatusSent, false, false⟩ ∧
    ((RevB.stripe_webhook (.ok sampleBEvent) "t1" "t2" false false false
        sampleBStatusUnsent).pdfAttempted = true ∧
     (false = false →
       (RevB.stripe_webhook (.ok sampleBEvent) "t1" "t2" false false false
         sampleBStatusUnsent).emailAttempted = true) ∧
     ∃ rec', alGet (RevB.stripe_webhook (.ok sampleBEvent) "t1" "t2" false false
         false sampleBStatusUnsent).status
           (RevB.bReportId sampleBEvent.dataObject) = some rec' ∧
       getVal rec' "stripe_session_id" = Val.str (RevB.bSessionId sampleBEvent.dataObject) ∧
       getVal rec' "last_event_id" = Val.str sampleBEvent.id ∧
       getVal rec' "updated_at" = Val.str "t1") :=
  ⟨c10_idempotency_keyed_on_sent.1 _ _ _ _ _ _ _ rfl rfl (by decide) (by decide) rfl,
   c10_idempotency_keyed_on_sent.2 _ _ _ _ _ _ rfl rfl (by decide) (by decide) rfl rfl⟩

/-- Once signature verification has passed, the file-backed webhook answers
200 whenever the status-file write does not raise. -/
theorem bProcessEvent_outcome_ok (e : Event) (nowP nowS : String) (p q : Bool)
    (st : RevB.StatusMap) :
    (RevB.bProcessEvent e nowP nowS p q false st).outcome = .ok200 := by
  unfold RevB.bProcessEvent
  by_cases h1 : e.type_ = "checkout.session.completed" <;>
    by_cases h2 : RevB.paymentStatusPaid e.dataObject <;>
      by_cases h3 : RevB.bReportId e.dataObject = "" ∨ RevB.bEmail e.dataObject = "" <;>
        by_cases h4 : (getVal ((alGet st (RevB.bReportId e.dataObject)).getD [])
          "sent").truthy <;> cases p <;> cases q <;> simp [h1, h2, h3, h4]

/-- Counterexample to C7: with a configured secret, a present signature and
a successfully verified completed-checkout event, a raising store backend
(`BigQueryReportStore.update_report` on a failed query) escapes the handler
uncaught — the framework then answers 500, not 200, although signature
verification passed. -/
theorem c7_always_200_counterexample :
    (RevA.stripe_webhook "whsec" (some "sig") (.ok sampleVerdictEvent) 200 true false
      "https://f" sampleStore).outcome = RevA.AOutcome.exn := rfl

/-- C7 amended: revision A answers 503 on a missing webhook secret and 400
on a missing signature or failed verification; once verification passes it
answers 200 for every business outcome as long as the store update does not
raise (an uncaught store exception escapes instead).  Revision B has no
configured-secret check (an unset secret surfaces as a 400 verification
failure); after verification it answers 200 whenever the status-file write
does not raise. -/
theorem c7_webhook_status_amended :
    (∀ (sig : Option String) (cr : ConstructResult) (now : Int) (ur er : Bool)
       (fu : String) (store : MemoryReportStore),
       RevA.stripe_webhook "" sig cr now ur er fu store = ⟨.http 503, store, []⟩) ∧
    (∀ (secret : String) (cr : ConstructResult) (now : Int) (ur er : Bool)
       (fu : String) (store : MemoryReportStore), secret ≠ "" →
       RevA.stripe_webhook secret none cr now ur er fu store = ⟨.http 400, store, []⟩) ∧
    (∀ (secret sig : String) (now : Int) (ur er : Bool) (fu : String)
       (store : MemoryReportStore), secret ≠ "" →
       (RevA.stripe_webhook secret (some sig) .valueError now ur er fu store).outcome =
         .http 400 ∧
       (RevA.stripe_webhook secret (some sig) .sigError now ur er fu store).outcome =
         .http 400) ∧
    (∀ (secret sig : String) (e : Event) (now : Int) (er : Bool) (fu : String)
       (store : MemoryReportStore), secret ≠ "" →
       (RevA.stripe_webhook secret (some sig) (.ok e) now false er fu store).outcome =
         .ok e.type_) ∧
    (∀ (e : Event) (nowP nowS : String) (p q : Bool) (st : RevB.StatusMap),
       (RevB.stripe_webhook (.ok e) nowP nowS p q false st).outcome = .ok200) ∧
    (∀ (nowP nowS : String) (p q w : Bool) (st : RevB.StatusMap),
       (RevB.stripe_webhook .sigError nowP nowS p q w st).outcome = .http400 ∧
       (RevB.stripe_webhook .valueError nowP nowS p q w st).outcome = .http400) := by
  refine ⟨?_, ?_, ?_, ?_, ?_, ?_⟩
  · intro sig cr now ur er fu store
    simp [RevA.stripe_webhook]
  · intro secret cr now ur er fu store h
    simp [RevA.stripe_webhook, h]
  · intro secret sig now ur er fu store h
    constructor <;> simp [RevA.stripe_webhook, h]
  · intro secret sig e now er fu store h
    rw [stripe_webhook_verified _ _ _ _ _ _ _ _ h]
    exact webhookEvent_outcome_ok e now er fu store
  · intro e nowP nowS p q st
    exact bProcessEvent_outcome_ok e nowP nowS p q st
  · intro nowP nowS p q w st
    exact ⟨rfl, rfl⟩

/-- Witness for the amended C7: concrete requests hitting the 503, 400 and
200 branches of both revisions. -/
theorem c7_webhook_status_amended_check :
    RevA.stripe_webhook "" (some "sig") (.ok sampleVerdictEvent) 200 false false
      "https://f" sampleStore = ⟨.http 503, sampleStore, []⟩ ∧
    RevA.stripe_webhook "whsec" none (.ok sampleVerdictEvent) 200 false false
      "https://f" sampleStore = ⟨.http 400, sampleStore, []⟩ ∧
    (RevA.stripe_webhook "whsec" (some "sig") (.ok sampleVerdictEvent) 200 false false
      "https://f" sampleStore).outcome = .ok "checkout.session.completed" ∧
    (RevB.stripe_webhook (.ok sampleBEvent) "t1" "t2" false false false
      sampleBStatusUnsent).outcome = .ok200 :=
  ⟨c7_webhook_status_amended.1 _ _ _ _ _ _ _,
   c7_webhook_status_amended.2.1 _ _ _ _ _ _ _ (by decide),
   c7_webhook_status_amended.2.2.2.1 _ _ _ _ _ _ _ (by decide),
   c7_webhook_status_amended.2.2.2.2.1 _ _ _ _ _ _⟩

/-- Counterexample to C5: the claim states that no operation can activate
repair on a still-locked report.  But the webhook's repair branch applies
its update unconditionally: delivering a verified repair-typed completed
event for the freshly created (still locked) sample report yields a record
with `repair_status = "active"` while `status = "locked"` — and that record
is reachable through the public operations. -/
theorem c5_repair_gate_counterexample :
    ReachableRecord (dictUpdate sampleRecord (RevA.repairUpdates 200 (Val.str "sess_2"))) ∧
    (RevA.stripe_webhook "whsec" (some "sig") (.ok sampleRepairEvent) 200 false false
      "https://f" sampleStore).store.db =
      [("R", dictUpdate sampleRecord (RevA.repairUpdates 200 (Val.str "sess_2")))] ∧
    getVal (dictUpdate sampleRecord (RevA.repairUpdates 200 (Val.str "sess_2")))
      "repair_status" = Val.str "active" ∧
    getVal (dictUpdate sampleRecord (RevA.repairUpdates 200 (Val.str "sess_2")))
      "status" = Val.str "locked" :=
  ⟨ReachableRecord.repairStep _ 200 (Val.str "sess_2")
    (ReachableRecord.created "acme.com" "A" "a@x.com" ["SEO"] "R" 100
      (by decide) (by decide) (by decide)),
   rfl, rfl, rfl⟩

/-- C5 amended: only repair checkout-session creation is gated on the
unlock axis (409 and no processor call unless `status = "unlocked"`); the
webhook's repair branch applies `repair_status = "active"` unconditionally
to whatever report the verified event names, and that update never touches
the unlock axis (`status`, `report_full`).  Hence the invariant
`repair_status = active → status = unlocked` holds only for repair events
originating from sessions minted by this API (whose reports were unlocked,
terminally, at minting time), not for arbitrary verified repair events. -/
theorem c5_repair_gate_amended :
    (∀ (cfg : RevA.CheckoutConfig) (store : MemoryReportStore) (rid : String)
       (email : Option String) (sr : RevA.StripeSessionResult) (report : Dict),
       cfg.stripe_secret_key ≠ "" → cfg.stripe_repair_price_id ≠ "" →
       cfg.frontend_url ≠ "" →
       store.get_report rid = some report → report.isEmpty = false →
       pyStrip (getStrD report "status" "") ≠ "unlocked" →
       RevA.create_repair_checkout_session cfg store rid email sr =
         ⟨.error 409, false, none, store⟩) ∧
    (∀ (secret sig : String) (e : Event) (now : Int) (er : Bool) (fu : String)
       (store : MemoryReportStore), secret ≠ "" →
       e.type_ = "checkout.session.completed" → RevA.aReportId e ≠ "" →
       RevA.aPaymentType e = "repair" →
       (RevA.stripe_webhook secret (some sig) (.ok e) now false er fu store).store =
         store.update_report (RevA.aReportId e)
           (RevA.repairUpdates now (getVal e.dataObject "id"))) ∧
    (∀ (r : Dict) (now : Int) (sid : Val),
       getVal (dictUpdate r (RevA.repairUpdates now sid)) "status" = getVal r "status" ∧
       getVal (dictUpdate r (RevA.repairUpdates now sid)) "report_full" =
         getVal r "report_full") := by
  refine ⟨?_, ?_, ?_⟩
  · intro cfg store rid email sr report h1 h2 h3 h4 h5 h6
    simp [RevA.create_repair_checkout_session, h1, h2, h3, h4, h5, h6]
  · intro secret sig e now er fu store h1 h2 h3 h4
    rw [stripe_webhook_verified _ _ _ _ _ _ _ _ h1]
    unfold RevA.webhookEvent
    simp [h2, h3, h4]
  · intro r now sid
    exact ⟨getVal_dictUpdate_notMem _ _ _ (by simp [RevA.repairUpdates]),
      getVal_dictUpdate_notMem _ _ _ (by simp [RevA.repairUpdates])⟩

/-- Witness for the amended C5: the repair checkout endpoint rejects the
locked sample report with 409 and no processor call; the webhook applies
the ungated repair update to the sample store; the repair update preserves
the sample record's `status`. -/
theorem c5_repair_gate_amended_check :
    RevA.create_repair_checkout_session ⟨"sk", "price", "rprice", "https://f"⟩
      sampleStore "R" none (.created (some "u")) =
      ⟨.error 409, false, none, sampleStore⟩ ∧
    (RevA.stripe_webhook "whsec" (some "sig") (.ok sampleRepairEvent) 200 false false
      "https://f" sampleStore).store =
      sampleStore.update_report (RevA.aReportId sampleRepairEvent)
        (RevA.repairUpdates 200 (getVal sampleRepairEvent.dataObject "id")) ∧
    getVal (dictUpdate sampleRecord (RevA.repairUpdates 200 (Val.str "s"))) "status" =
      getVal sampleRecord "status" :=
  ⟨c5_repair_gate_amended.1 _ _ _ _ _ _ (by decide) (by decide) (by decide) rfl rfl
     (by decide),
   c5_repair_gate_amended.2.1 _ _ _ _ _ _ _ (by decide) rfl (by decide) rfl,
   (c5_repair_gate_amended.2.2 sampleRecord 200 (Val.str "s")).1⟩

/-- Evaluation of the C1 failing input: report `R` of the sample store is
already in its terminal state (`status = "unlocked"`, `paid_at = 200`)
after the first delivery of the completed-checkout notification, yet
redelivering the identical notification (same session id `sess_1`) mutates
the store again — `paid_at` is overwritten to the new time 300 — and queues
a second unlock email.  Revision A's webhook performs no idempotency check
before applying the unlock update. -/
theorem c1_redelivery_not_idempotent :
    getVal ((alGet sampleUnlockedStore.db "R").getD []) "status" = Val.str "unlocked" ∧
    getVal ((alGet sampleUnlockedStore.db "R").getD []) "paid_at" = Val.int 200 ∧
    getVal ((alGet (RevA.stripe_webhook "whsec" (some "sig") (.ok sampleVerdictEvent)
        300 false false "https://f" sampleUnlockedStore).store.db "R").getD [])
      "paid_at" = Val.int 300 ∧
    (RevA.stripe_webhook "whsec" (some "sig") (.ok sampleVerdictEvent) 300 false false
      "https://f" sampleUnlockedStore).emails =
      [RevA.unlockEmail "https://f" "R" "a@x.com"] :=
  ⟨rfl, rfl, rfl, rfl⟩

/-- A non-empty list is not `isEmpty`. -/
theorem isEmpty_false_of_ne_nil {α : Type} (l : List α) (h : l ≠ []) :
    l.isEmpty = false := by
  cases l with
  | nil => exact absurd rfl h
  | cons a t => rfl

/-- The created record stores its own id. -/
theorem analyzeRecord_report_id (d n em : String) (sel : List String)
    (rid : String) (now : Int) :
    getVal (RevA.analyzeRecord d n em sel rid now) "report_id" = .str rid := by
  simp [RevA.analyzeRecord, getVal, alGet]

/-- The created record starts locked. -/
theorem analyzeRecord_status (d n em : String) (sel : List String)
    (rid : String) (now : Int) :
    getVal (RevA.analyzeRecord d n em sel rid now) "status" = .str "locked" := by
  simp [RevA.analyzeRecord, getVal, alGet]

/-- The created record has no `report_full` field. -/
theorem analyzeRecord_full (d n em : String) (sel : List String)
    (rid : String) (now : Int) :
    getVal (RevA.analyzeRecord d n em sel rid now) "report_full" = .null := by
  simp [RevA.analyzeRecord, getVal, alGet]

/-- The created record is not the empty dict. -/
theorem analyzeRecord_ne_nil (d n em : String) (sel : List String)
    (rid : String) (now : Int) :
    RevA.analyzeRecord d n em sel rid now ≠ [] := by
  simp [RevA.analyzeRecord]

/-- After the verdict update the record's status is `unlocked`. -/
theorem verdictUpdate_status (r : Dict) (rid : String) (now : Int) (sid : Val) :
    getVal (dictUpdate r (RevA.verdictUpdates rid now sid)) "status" =
      .str "unlocked" := by
  simp [RevA.verdictUpdates, dictUpdate_cons, dictUpdate_nil, getVal_alSet]

/-- After the verdict update the record carries the full report. -/
theorem verdictUpdate_full (r : Dict) (rid : String) (now : Int) (sid : Val) :
    getVal (dictUpdate r (RevA.verdictUpdates rid now sid)) "report_full" =
      RevA.verdictFullReport rid now := by
  simp [RevA.verdictUpdates, dictUpdate_cons, dictUpdate_nil, getVal_alSet]

/-- Projection of `GET /report/...` on a present, non-empty record. -/
theorem get_report_eq (store : MemoryReportStore) (rid : String) (report : Dict)
    (h : alGet store.db rid = some report) (hne : report.isEmpty = false) :
    RevA.get_report store rid = .ok
      { report_id := getVal report "report_id"
        dominio := pyOr (getVal report "domain") (getVal report "dominio")
        modules := RevA.parseModules (pyOr (getVal report "selected_modules")
          (pyOr (getVal report "modules") (.str "[]")))
        paid := RevA.isUnlockedField report
        full_report := if RevA.isUnlockedField report then getVal report "report_full"
          else .null } := by
  simp [RevA.get_report, MemoryReportStore.get_report, h, hne]

/-- Successful creation via `/analyze` determines the new store and record. -/
theorem analyze_ok (body : RevA.AnalyzeRequest) (rid : String) (now : Int)
    (store st1 : MemoryReportStore) (rec : Dict)
    (h : RevA.analyze body rid now store = .ok (st1, rec)) :
    rec = RevA.analyzeRecord (pyStrip body.dominio) (pyStrip body.nombre)
      (pyStrip body.email) body.selectedModules rid now ∧
    st1.db = alSet store.db rid rec := by
  unfold RevA.analyze at h
  by_cases hv : pyStrip body.dominio = "" ∨ pyStrip body.nombre = "" ∨
      pyStrip body.email = ""
  · rw [if_pos hv] at h
    exact absurd h (by simp)
  · rw [if_neg hv] at h
    simp only [Except.ok.injEq, Prod.mk.injEq] at h
    obtain ⟨h1, h2⟩ := h
    subst h1 h2
    refine ⟨rfl, ?_⟩
    simp [MemoryReportStore.create_report, analyzeRecord_report_id, strOfVal]

/-- C3: on every record reachable through the public operations,
`report_full` is present exactly when `status = "unlocked"`; a freshly
created report fetched through `GET /report/...` shows `paid = false` and
no `full_report`; after a verified completed-payment (verdict) event naming
it, the same fetch shows `paid = true` and a non-null `full_report`. -/
theorem c3_full_result_iff_unlocked :
    (∀ (r : Dict), ReachableRecord r →
       (getVal r "report_full" ≠ Val.null ↔
         getVal r "status" = Val.str "unlocked")) ∧
    (∀ (body : RevA.AnalyzeRequest) (rid : String) (now : Int)
       (store st1 : MemoryReportStore) (rec : Dict),
       RevA.analyze body rid now store = .ok (st1, rec) →
       ∃ p, RevA.get_report st1 rid = .ok p ∧ p.paid = false ∧
         p.full_report = Val.null) ∧
    (∀ (body : RevA.AnalyzeRequest) (rid : String) (now : Int)
       (store st1 : MemoryReportStore) (rec : Dict) (secret sig : String)
       (e : Event) (now1 : Int) (er : Bool) (fu : String),
       RevA.analyze body rid now store = .ok (st1, rec) →
       secret ≠ "" → e.type_ = "checkout.session.completed" →
       RevA.aReportId e = rid → rid ≠ "" → RevA.aPaymentType e ≠ "repair" →
       ∃ p, RevA.get_report (RevA.stripe_webhook secret (some sig) (.ok e) now1
           false er fu st1).store rid = .ok p ∧ p.paid = true ∧
         p.full_report ≠ Val.null) := by
  refine ⟨?_, ?_, ?_⟩
  · intro r hr
    induction hr with
    | created d n em sel rid now hd hn he =>
      simp [analyzeRecord_full, analyzeRecord_status]
    | verdict r rid now sid hr ih =>
      simp [verdictUpdate_status, verdictUpdate_full, RevA.verdictFullReport]
    | repairStep r now sid hr ih =>
      rw [getVal_dictUpdate_notMem _ _ _ (by simp [RevA.repairUpdates]),
        getVal_dictUpdate_notMem _ _ _ (by simp [RevA.repairUpdates])]
      exact ih
  · intro body rid now store st1 rec h
    obtain ⟨hrec, hdb⟩ := analyze_ok body rid now store st1 rec h
    have hget : alGet st1.db rid = some rec := by
      rw [hdb, alGet_alSet]
      simp
    have hne : rec.isEmpty = false :=
      isEmpty_false_of_ne_nil _ (hrec ▸ analyzeRecord_ne_nil _ _ _ _ _ _)
    refine ⟨_, get_report_eq st1 rid rec hget hne, ?_, ?_⟩
    · simp [RevA.isUnlockedField, hrec, analyzeRecord_status]
    · simp [RevA.isUnlockedField, hrec, analyzeRecord_status]
  · intro body rid now store st1 rec secret sig e now1 er fu h hs htype hrid hne hptype
    obtain ⟨hrec, hdb⟩ := analyze_ok body rid now store st1 rec h
    have hget : alGet st1.db rid = some rec := by
      rw [hdb, alGet_alSet]
      simp
    rw [stripe_webhook_verified _ _ _ _ _ _ _ _ hs]
    unfold RevA.webhookEvent
    rw [if_pos htype]
    rw [hrid]
    rw [if_neg hne, if_neg hptype]
    simp only [Bool.false_eq_true, if_false]
    have hupd : (st1.update_report rid
        (RevA.verdictUpdates rid now1 (getVal e.dataObject "id"))).db =
        alSet st1.db rid (dictUpdate rec (RevA.verdictUpdates rid now1
          (getVal e.dataObject "id"))) := by
      simp [MemoryReportStore.update_report, hget]
    have hget2 : alGet (st1.update_report rid
        (RevA.verdictUpdates rid now1 (getVal e.dataObject "id"))).db rid =
        some (dictUpdate rec (RevA.verdictUpdates rid now1
          (getVal e.dataObject "id"))) := by
      rw [hupd, alGet_alSet]
      simp
    have hne2 : (dictUpdate rec (RevA.verdictUpdates rid now1
        (getVal e.dataObject "id"))).isEmpty = false :=
      isEmpty_false_of_ne_nil _ (dictUpdate_ne_nil _ _
        (hrec ▸ analyzeRecord_ne_nil _ _ _ _ _ _))
    refine ⟨_, get_report_eq _ rid _ hget2 hne2, ?_, ?_⟩
    · simp [RevA.isUnlockedField, verdictUpdate_status]
    · simp [RevA.isUnlockedField, verdictUpdate_status, verdictUpdate_full,
        RevA.verdictFullReport]

/-- Witness for C3: the invariant at the freshly created sample record, and
the fresh/unlocked projections of report `R` through the public endpoint. -/
theorem c3_full_result_iff_unlocked_check :
    (getVal sampleRecord "report_full" ≠ Val.null ↔
      getVal sampleRecord "status" = Val.str "unlocked") ∧
    (∃ p, RevA.get_report sampleStore "R" = .ok p ∧ p.paid = false ∧
      p.full_report = Val.null) ∧
    (∃ p, RevA.get_report (RevA.stripe_webhook "whsec" (some "sig")
        (.ok sampleVerdictEvent) 200 false false "https://f" sampleStore).store "R" =
        .ok p ∧ p.paid = true ∧ p.full_report ≠ Val.null) :=
  ⟨c3_full_result_iff_unlocked.1 sampleRecord
    (ReachableRecord.created "acme.com" "A" "a@x.com" ["SEO"] "R" 100
      (by decide) (by decide) (by decide)),
   c3_full_result_iff_unlocked.2.1 ⟨"acme.com", "A", "a@x.com", ["SEO"]⟩ "R" 100
     ⟨[]⟩ sampleStore sampleRecord rfl,
   c3_full_result_iff_unlocked.2.2 ⟨"acme.com", "A", "a@x.com", ["SEO"]⟩ "R" 100
     ⟨[]⟩ sampleStore sampleRecord "whsec" "sig" sampleVerdictEvent 200 false
     "https://f" rfl (by decide) rfl rfl (by decide) (by decide)⟩

end Ron3ia
